import Mathlib

/-!
Verification of the particle-system repository: a shallow embedding of the
shader-composition layer (src/behaviors/base.ts), the GPGPU ping-pong engine
wrapper (src/lib/GPGPU.ts), the initial-data helpers (particleData) and the
frame driver, together with theorems settling the frozen claims.

JavaScript numbers are modelled as rationals; floating-point rounding is not
modelled (all concrete inputs in the claims are exactly representable).
-/

set_option maxRecDepth 4000

/-! ## JavaScript value model

Used by `ParticleBehavior.detectGLSLType` and
`ParticleBehavior.generateUniformDeclarations` in src/behaviors/base.ts,
which inspect dynamically typed uniform values structurally. -/

inductive JSValue where
  | num (q : ℚ)
  | str (s : String)
  | bool (b : Bool)
  | null
  | undefined
  | arr (xs : List JSValue)
  | obj (fields : List (String × JSValue))

/-- JavaScript truthiness of a value (NaN and negative zero are not modelled;
no claim depends on them). -/
def JSValue.truthy : JSValue → Bool
  | .num q => q != 0
  | .str s => s != ""
  | .bool b => b
  | .null => false
  | .undefined => false
  | .arr _ => true
  | .obj _ => true

/-- Property access `v[k]`: on a plain object it is the first field with the
given key, `undefined` when absent; on every other modelled value it is
`undefined` (the source only reads properties off plain objects, arrays
without named fields, and primitives). -/
def JSValue.getField : JSValue → String → JSValue
  | .obj fs, k =>
    match fs.find? (fun p => p.1 == k) with
    | some p => p.2
    | Option.none => .undefined
  | _, _ => .undefined

/-- The JavaScript `k in v` test: key presence on a plain object. -/
def JSValue.hasField : JSValue → String → Bool
  | .obj fs, k => fs.any (fun p => p.1 == k)
  | _, _ => false

/-- Whether `typeof v === \x27number\x27` holds. -/
def JSValue.isNum : JSValue → Bool
  | .num _ => true
  | _ => false

/-- Whether `typeof v === \x27object\x27` holds: true for plain objects,
arrays and null. -/
def JSValue.typeofIsObject : JSValue → Bool
  | .obj _ => true
  | .arr _ => true
  | .null => true
  | _ => false

/-! ## Uniform type inference (ParticleBehavior.detectGLSLType, base.ts lines 70 to 119) -/

/-- Translation of `ParticleBehavior.detectGLSLType`.  Order of tests follows
the source exactly: number, falsy-or-not-object, THREE type flags
(isTexture, isVector3, isVector2, isColor), numeric arrays of length 2 to 4,
then duck typing on x/y/z, x/y without z, and r/g/b fields. -/
def detectGLSLType (value : JSValue) : Option String :=
  if value.isNum then some "float"
  else if !value.truthy || !value.typeofIsObject then Option.none
  else if (value.getField "isTexture").truthy then some "sampler2D"
  else if (value.getField "isVector3").truthy then some "vec3"
  else if (value.getField "isVector2").truthy then some "vec2"
  else if (value.getField "isColor").truthy then some "vec3"
  else
    match value with
    | .arr xs =>
      if 2 ≤ xs.length && xs.length ≤ 4 && xs.all JSValue.isNum then
        some ("vec" ++ toString xs.length)
      else Option.none
    | _ =>
      if (value.getField "x").isNum && (value.getField "y").isNum
          && (value.getField "z").isNum then some "vec3"
      else if (value.getField "x").isNum && (value.getField "y").isNum
          && !value.hasField "z" then some "vec2"
      else if (value.getField "r").isNum && (value.getField "g").isNum
          && (value.getField "b").isNum then some "vec3"
      else Option.none

/-- Translation of `ParticleBehavior.generateUniformDeclarations` (base.ts
lines 47 to 67): for each entry, an explicit non-empty string `type` field
wins; otherwise the type is inferred from the `value` field; entries with no
inferable type are skipped.  Lines are joined with a newline. -/
def generateUniformDeclarations (uniforms : List (String × JSValue)) : String :=
  String.intercalate "\n" (uniforms.filterMap (fun p =>
    match p.2.getField "type" with
    | JSValue.str t =>
      if t != "" then some ("uniform " ++ t ++ " " ++ p.1 ++ ";")
      else
        match detectGLSLType (p.2.getField "value") with
        | some g => some ("uniform " ++ g ++ " " ++ p.1 ++ ";")
        | Option.none => Option.none
    | _ =>
      match detectGLSLType (p.2.getField "value") with
      | some g => some ("uniform " ++ g ++ " " ++ p.1 ++ ";")
      | Option.none => Option.none))

/-! ## Boundary code generation (ParticleBehavior.getBoundaryShader, base.ts lines 122 to 164) -/

inductive BoundaryType where
  | wrap
  | bounce
  | none
deriving DecidableEq

/-- Mirror of the `BoundaryConfig` interface of base.ts.  `bounceFactor` is an
optional field, used only for the bounce type. -/
structure BoundaryConfig where
  type : BoundaryType
  min : ℚ × ℚ × ℚ
  max : ℚ × ℚ × ℚ
  bounceFactor : Option ℚ := Option.none

/-- The `formatFloat` helper of getBoundaryShader: `n.toFixed(1)`.  Per the
ECMAScript algorithm, the sign is split off and the magnitude is rounded to
the nearest tenth, ties toward the larger digit string. -/
def jsToFixed1 (q : ℚ) : String :=
  let sign := if q < 0 then "-" else ""
  let m : ℕ := (Int.floor (|q| * 10 + 1/2)).toNat
  sign ++ toString (m / 10) ++ "." ++ toString (m % 10)

/-- Numeric value denoted by the `toFixed(1)` literal that getBoundaryShader
embeds in the generated program for the rational q. -/
def toFixed1Val (q : ℚ) : ℚ :=
  (if q < 0 then (-1 : ℚ) else 1) * ((Int.floor (|q| * 10 + 1/2) : ℚ) / 10)

/-- The JavaScript expression `boundary.bounceFactor || 0.8` of base.ts line
154: an absent or zero (falsy) bounce factor falls back to the 0.8 default. -/
def effBounceFactor : Option ℚ → ℚ
  | some b => if b = 0 then 4/5 else b
  | Option.none => 4/5

/-- Translation of `ParticleBehavior.getBoundaryShader`: emits nothing for
type none, the wrap block for type wrap, and the bounce block otherwise,
with all numeric literals formatted through `formatFloat` (toFixed(1)). -/
def getBoundaryShader (boundary : BoundaryConfig) : String :=
  if boundary.type = BoundaryType.none then ""
  else
    let minX := jsToFixed1 boundary.min.1
    let minY := jsToFixed1 boundary.min.2.1
    let minZ := jsToFixed1 boundary.min.2.2
    let maxX := jsToFixed1 boundary.max.1
    let maxY := jsToFixed1 boundary.max.2.1
    let maxZ := jsToFixed1 boundary.max.2.2
    if boundary.type = BoundaryType.wrap then
      "\n                // Wrap around boundaries\n                if (pos.x > "
        ++ maxX ++ ") pos.x = " ++ minX ++ ";\n                if (pos.x < "
        ++ minX ++ ") pos.x = " ++ maxX ++ ";\n                if (pos.y > "
        ++ maxY ++ ") pos.y = " ++ minY ++ ";\n                if (pos.y < "
        ++ minY ++ ") pos.y = " ++ maxY ++ ";\n                if (pos.z > "
        ++ maxZ ++ ") pos.z = " ++ minZ ++ ";\n                if (pos.z < "
        ++ minZ ++ ") pos.z = " ++ maxZ ++ ";\n            "
    else
      let bf := jsToFixed1 (effBounceFactor boundary.bounceFactor)
      "\n            // Boundary conditions - bounce\n            if (pos.x > "
        ++ maxX ++ ") \x7b pos.x = " ++ maxX ++ "; vel.x *= -" ++ bf
        ++ "; \x7d\n            if (pos.x < "
        ++ minX ++ ") \x7b pos.x = " ++ minX ++ "; vel.x *= -" ++ bf
        ++ "; \x7d\n            if (pos.y > "
        ++ maxY ++ ") \x7b pos.y = " ++ maxY ++ "; vel.y *= -" ++ bf
        ++ "; \x7d\n            if (pos.y < "
        ++ minY ++ ") \x7b pos.y = " ++ minY ++ "; vel.y *= -" ++ bf
        ++ "; \x7d\n            if (pos.z > "
        ++ maxZ ++ ") \x7b pos.z = " ++ maxZ ++ "; vel.z *= -" ++ bf
        ++ "; \x7d\n            if (pos.z < "
        ++ minZ ++ ") \x7b pos.z = " ++ minZ ++ "; vel.z *= -" ++ bf
        ++ "; \x7d\n        "

/-! ## Semantics of the generated boundary code

The wrap block emitted for one axis is the statement pair
`if (pos.a > MAX) pos.a = MIN; if (pos.a < MIN) pos.a = MAX;` executed in
order; the bounce block is
`if (pos.a > MAX) \x7b pos.a = MAX; vel.a *= -BF; \x7d` followed by the
symmetric test at MIN.  The functions below execute exactly those statement
sequences on rational components, with MIN/MAX/BF the values denoted by the
emitted toFixed(1) literals. -/

/-- Effect of the emitted wrap statements on one position component. -/
def wrapAxis (mn mx p : ℚ) : ℚ :=
  let p1 := if p > mx then mn else p
  if p1 < mn then mx else p1

/-- Effect of the emitted bounce statements on one position component and
the matching velocity component. -/
def bounceAxis (mn mx bf p v : ℚ) : ℚ × ℚ :=
  let pv := if p > mx then (mx, v * -bf) else (p, v)
  if pv.1 < mn then (mn, pv.2 * -bf) else pv

/-- Whole-vector semantics of the emitted wrap block: the three axes are
handled independently, each against its own formatted bounds. -/
def applyWrapBoundary (cfg : BoundaryConfig) (pos : ℚ × ℚ × ℚ) : ℚ × ℚ × ℚ :=
  (wrapAxis (toFixed1Val cfg.min.1) (toFixed1Val cfg.max.1) pos.1,
   wrapAxis (toFixed1Val cfg.min.2.1) (toFixed1Val cfg.max.2.1) pos.2.1,
   wrapAxis (toFixed1Val cfg.min.2.2) (toFixed1Val cfg.max.2.2) pos.2.2)

/-- Whole-vector semantics of the emitted bounce block. -/
def applyBounceBoundary (cfg : BoundaryConfig) (pos vel : ℚ × ℚ × ℚ) :
    (ℚ × ℚ × ℚ) × (ℚ × ℚ × ℚ) :=
  let bf := toFixed1Val (effBounceFactor cfg.bounceFactor)
  let x := bounceAxis (toFixed1Val cfg.min.1) (toFixed1Val cfg.max.1) bf pos.1 vel.1
  let y := bounceAxis (toFixed1Val cfg.min.2.1) (toFixed1Val cfg.max.2.1) bf pos.2.1 vel.2.1
  let z := bounceAxis (toFixed1Val cfg.min.2.2) (toFixed1Val cfg.max.2.2) bf pos.2.2 vel.2.2
  ((x.1, y.1, z.1), (x.2, y.2, z.2))

/-! ## Program composition (getPositionShader / getVelocityShader, base.ts lines 167 to 216) -/

/-- Mirror of the `ParticleBehavior` contract of base.ts: the boundary
config, the two injected update-logic fragments and the two uniform maps,
with the source defaults. -/
structure ParticleBehavior where
  boundaryConfig : BoundaryConfig :=
    { type := BoundaryType.none, min := (0, 0, 0), max := (0, 0, 0) }
  positionUpdateLogic : String := "pos.xyz += vel.xyz * delta;"
  velocityUpdateLogic : String := "vel.xyz *= 0.99;"
  positionUniforms : List (String × JSValue) := []
  velocityUniforms : List (String × JSValue) := []

/-- The template expression
`uniformDeclarations ? twelveSpaces + decls.split(newline).join(newline + twelveSpaces) + newline : emptyString`
shared by both shader templates. -/
def spliceUniformDeclarations (decls : String) : String :=
  if decls = "" then ""
  else "            " ++ String.intercalate "\n            " (decls.splitOn "\n") ++ "\n"

/-- Translation of `ParticleBehavior.getPositionShader`: the template literal
of base.ts lines 171 to 192, written as concatenation at its splice points. -/
def getPositionShader (b : ParticleBehavior) : String :=
  "\n            uniform float time;\n            uniform float delta;\n"
  ++ spliceUniformDeclarations (generateUniformDeclarations b.positionUniforms)
  ++ "            void main() \x7b\n                vec2 uv = gl_FragCoord.xy / resolution.xy;\n                \n                vec4 pos = texture2D(positionTex, uv);\n                vec4 vel = texture2D(velocityTex, uv);\n                \n                // Position update logic (injected by behavior)\n                "
  ++ b.positionUpdateLogic
  ++ "\n                \n                // Boundary handling (injected by behavior)\n                "
  ++ getBoundaryShader b.boundaryConfig
  ++ "\n                \n                // Update age\n                pos.w = mod(pos.w + delta, 1.0);\n                \n                gl_FragColor = pos;\n            \x7d\n        "

/-- Translation of `ParticleBehavior.getVelocityShader`: the template literal
of base.ts lines 200 to 215. -/
def getVelocityShader (b : ParticleBehavior) : String :=
  "\n            uniform float time;\n            uniform float delta;\n"
  ++ spliceUniformDeclarations (generateUniformDeclarations b.velocityUniforms)
  ++ "            void main() \x7b\n                vec2 uv = gl_FragCoord.xy / resolution.xy;\n                \n                vec4 vel = texture2D(velocityTex, uv);\n                vec4 pos = texture2D(positionTex, uv);\n                \n                // Velocity update logic (injected by behavior)\n                "
  ++ b.velocityUpdateLogic
  ++ "\n                \n                gl_FragColor = vel;\n            \x7d\n        "

/-- Substring test used to state that the fixed parts of the velocity
template contain no boundary block and no age update. -/
def containsSub (hay needle : String) : Bool :=
  (List.range (hay.data.length + 1)).any (fun i =>
    ((hay.data.drop i).take needle.data.length) == needle.data)

/-! ## Ping-pong simulation engine

src/lib/GPGPU.ts wraps a `GPUComputationRenderer` whose implementation file
is not under src/ (only its caller is); the renderer operations are
therefore modelled from the spec (sections 3 and 4.4), while every GPGPU
wrapper method is translated from src/lib/GPGPU.ts. -/

/-- One texel of per-particle state: 4 channels. -/
structure Vec4 where
  x : ℚ
  y : ℚ
  z : ℚ
  w : ℚ
deriving DecidableEq

/-- A simulation variable.  Modelled from the spec (section 3): name, the
compute program (per-cell update rule, reading the dependency textures at
the current cell), the initial-value texture data, the two ping-pong render
targets, and the declared read dependencies.  `needsUpdate` mirrors the
dirty flag GPGPU.resetVariable sets on the initial-value texture. -/
structure SimVariable where
  name : String
  prog : (String → Vec4) → Vec4
  initialTexture : List Vec4
  renderTargets : List Vec4 × List Vec4
  dependencies : List String
  needsUpdate : Bool

/-- Modelled from the spec (section 3): the renderer owns the variables;
`currentIndex` selects which buffer of every pair is "current" (the buffers
alternate strictly, all pairs in lockstep). -/
structure GPUComputationRenderer where
  varList : List SimVariable
  currentIndex : Bool

/-- The buffer of the pair currently designated by the flag. -/
def currentOf (v : SimVariable) (idx : Bool) : List Vec4 :=
  if idx then v.renderTargets.2 else v.renderTargets.1

/-- Replace the buffer designated by the flag. -/
def setTargetAt (v : SimVariable) (idx : Bool) (buf : List Vec4) : SimVariable :=
  if idx then { v with renderTargets := (v.renderTargets.1, buf) }
  else { v with renderTargets := (buf, v.renderTargets.2) }

/-- Look a variable up by name. -/
def GPUComputationRenderer.findVar (r : GPUComputationRenderer) (name : String) :
    Option SimVariable :=
  r.varList.find? (fun v => v.name == name)

/-- Modelled from the spec: `addVariableByMat` of the missing
GPUComputationRenderer registers a new variable; spec 4.4: "Fails if name
already registered (caller error)" and section 7 classifies a duplicate
name as a configuration error that must fail fast.  Both buffers of the
pair are allocated (empty until init seeds them). -/
def GPUComputationRenderer.addVariableByMat (r : GPUComputationRenderer)
    (name : String) (prog : (String → Vec4) → Vec4) (tex : List Vec4) :
    Except String GPUComputationRenderer :=
  if r.varList.any (fun v => v.name == name) then
    Except.error ("Variable already registered: " ++ name)
  else
    Except.ok { r with varList := r.varList ++
      [{ name := name, prog := prog, initialTexture := tex,
         renderTargets := ([], []), dependencies := [], needsUpdate := false }] }

/-- Modelled from the spec: `setVariableDependencies` records which
current buffers of which variables this program reads when it steps. -/
def GPUComputationRenderer.setVariableDependencies (r : GPUComputationRenderer)
    (name : String) (deps : List String) : GPUComputationRenderer :=
  { r with varList := r.varList.map (fun v =>
      if v.name == name then { v with dependencies := deps } else v) }

/-- Modelled from the spec: `init()` makes "current" hold valid results
matching the initial data exactly, by copying the seed data into both
buffers of every pair before any program runs (spec 4.4, init). -/
def GPUComputationRenderer.init (r : GPUComputationRenderer) : GPUComputationRenderer :=
  { r with varList := r.varList.map (fun v =>
      { v with renderTargets := (v.initialTexture, v.initialTexture) }) }

/-- The pre-step current buffer of a named variable (empty for an unknown
name, standing for the all-zero unbound texture). -/
def preStepCurrent (r : GPUComputationRenderer) (name : String) : List Vec4 :=
  match r.findVar name with
  | some v => currentOf v r.currentIndex
  | Option.none => []

/-- The buffer one step writes for variable v: every cell is the program
applied to the PRE-step current buffers of the declared dependencies
(sampling a non-dependency yields the zero texel). -/
def stepBuffer (r : GPUComputationRenderer) (v : SimVariable) : List Vec4 :=
  (List.range (currentOf v r.currentIndex).length).map (fun i =>
    v.prog (fun n =>
      if v.dependencies.contains n then (preStepCurrent r n).getD i ⟨0, 0, 0, 0⟩
      else ⟨0, 0, 0, 0⟩))

/-- Modelled from the spec: `compute()` (spec 4.4, step): every variable
reads the pre-step current buffers of its dependencies, writes into the
inactive buffer, then the designations swap.  "Within one step, every
variable observes a single consistent snapshot of the states of all
variables as
they were at the start of the step." -/
def GPUComputationRenderer.compute (r : GPUComputationRenderer) : GPUComputationRenderer :=
  { varList := r.varList.map (fun v => setTargetAt v (!r.currentIndex) (stepBuffer r v)),
    currentIndex := !r.currentIndex }

/-- Translation of the GPGPU wrapper class state (src/lib/GPGPU.ts): the
renderer plus the `variables` record; the record values are the variable
objects held by the renderer, so only the keys are modelled. -/
structure GPGPU where
  gpuCompute : GPUComputationRenderer
  variableKeys : List String

/-- A freshly constructed GPGPU engine. -/
def GPGPU.new : GPGPU := { gpuCompute := { varList := [], currentIndex := false }, variableKeys := [] }

/-- Record-keyed insert: `this.varList[name] = variable` adds the key when
absent (an existing key would be overwritten in place). -/
def recordInsertKey (keys : List String) (name : String) : List String :=
  if keys.contains name then keys else keys ++ [name]

/-- Translation of `GPGPU.addVariable` (GPGPU.ts lines 13 to 20): creates a
texture, points its data at `data`, registers through addVariableByMat and
stores the variable in the record.  A failure of the inner registration
propagates before the record is touched. -/
def GPGPU.addVariable (g : GPGPU) (name : String) (data : List Vec4)
    (prog : (String → Vec4) → Vec4) : Except String GPGPU := do
  let r ← g.gpuCompute.addVariableByMat name prog data
  Except.ok { gpuCompute := r, variableKeys := recordInsertKey g.variableKeys name }

/-- Translation of `GPGPU.setVariableDependencies`. -/
def GPGPU.setVariableDependencies (g : GPGPU) (name : String) (deps : List String) : GPGPU :=
  { g with gpuCompute := g.gpuCompute.setVariableDependencies name deps }

/-- Translation of `GPGPU.init`. -/
def GPGPU.init (g : GPGPU) : GPGPU :=
  { g with gpuCompute := g.gpuCompute.init }

/-- Translation of `GPGPU.compute`. -/
def GPGPU.compute (g : GPGPU) : GPGPU :=
  { g with gpuCompute := g.gpuCompute.compute }

/-- Translation of `GPGPU.getCurrentRenderTarget` (GPGPU.ts lines 53 to 60):
null for an unknown name, otherwise the texture of the render target the
renderer currently marks as "current" for that variable. -/
def GPGPU.getCurrentRenderTarget (g : GPGPU) (name : String) : Option (List Vec4) :=
  if g.variableKeys.contains name then
    match g.gpuCompute.findVar name with
    | some v => some (currentOf v g.gpuCompute.currentIndex)
    | Option.none => Option.none
  else Option.none

/-- The TypedArray.set copy `image.data.set(data)`: overwrites a prefix of
the target in place.  (A source longer than the target throws a RangeError
in JavaScript; that case is modelled as leaving the target unchanged and is
not exercised by any claim.) -/
def typedArraySet (target source : List Vec4) : List Vec4 :=
  if source.length ≤ target.length then source ++ target.drop source.length else target

/-- Translation of `GPGPU.resetVariable` (GPGPU.ts lines 69 to 88): copies
the new data into the initial-value texture and marks it dirty.  The
render-target branch of the source is an empty placeholder (its comment
says a full implementation would render the texture to both targets here),
so the ping-pong buffers are NOT touched. -/
def GPGPU.resetVariable (g : GPGPU) (name : String) (data : List Vec4) : GPGPU :=
  if g.variableKeys.contains name then
    { g with gpuCompute := { g.gpuCompute with varList := g.gpuCompute.varList.map (fun v =>
        if v.name == name then
          { v with initialTexture := typedArraySet v.initialTexture data, needsUpdate := true }
        else v) } }
  else g

/-! ## Initial data helpers (generateInitialPositions, utils/particleData) -/

/-- Translation of `const textureSize = Math.floor(Math.sqrt(count))` of
useParticleGPGPU.ts line 48 (identical in particleData): the grid side. -/
def textureSize (count : ℕ) : ℕ := Nat.sqrt count

/-- Translation of `generateInitialPositions` (utils/particleData): a flat
buffer of size*size cells, 4 channels per cell, filled from the position
config `generatePosition(i, count, size)`. -/
def generateInitialPositions (count : ℕ) (config : ℕ → ℕ → ℕ → Vec4) : List ℚ :=
  let size := Nat.sqrt count
  (List.range (size * size)).flatMap (fun i =>
    let p := config i count size
    [p.x, p.y, p.z, p.w])

/-- Modelled from the spec words of claim C4 only (for the counterexample):
the capacity the claim asserts, namely ceil(sqrt(N)) squared. -/
def claimCeilSqrt (n : ℕ) : ℕ :=
  if Nat.sqrt n * Nat.sqrt n = n then Nat.sqrt n else Nat.sqrt n + 1

/-! ## Frame driver (useFrame callback of the ParticleSystem component, and MAX_DELTA_TIME) -/

/-- Translation of `MAX_DELTA_TIME = 1 / 30` (src/utils/constants.ts line 2). -/
def MAX_DELTA_TIME : ℚ := 1/30

/-- The accumulated simulation time `timeRef.current`. -/
structure FrameClock where
  timeAcc : ℚ

/-- Translation of the per-frame timing code of the useFrame callback:
`dt = Math.min(delta, MAX_DELTA_TIME); t = timeRef.current;
timeRef.current += dt;` then `time` is uploaded as t and `delta` as dt.
Returns ((uploaded time, uploaded delta), new clock). -/
def frameStep (st : FrameClock) (delta : ℚ) : (ℚ × ℚ) × FrameClock :=
  let dt := min delta MAX_DELTA_TIME
  let t := st.timeAcc
  ((t, dt), ⟨t + dt⟩)

/-- Folding the frame callback over a sequence of raw deltas. -/
def runFrames (st : FrameClock) (deltas : List ℚ) : FrameClock :=
  deltas.foldl (fun s d => (frameStep s d).2) st

/-! ## Concrete scenario data used by the claim theorems -/

/-- The identity compute program: copies the positionTex texel through. -/
def identProg : (String → Vec4) → Vec4 := fun env => env "positionTex"

/-- The position program of the C1 scenario, `pos += vel*delta` with
delta = 1 (per-component Euler step on xyz). -/
def posProgC1 : (String → Vec4) → Vec4 := fun env =>
  let p := env "positionTex"
  let v := env "velocityTex"
  ⟨p.x + v.x * 1, p.y + v.y * 1, p.z + v.z * 1, p.w⟩

/-- The velocity program of the C1 scenario, `vel *= 0.5`. -/
def velProgC1 : (String → Vec4) → Vec4 := fun env =>
  let v := env "velocityTex"
  ⟨v.x * (1/2), v.y * (1/2), v.z * (1/2), v.w * (1/2)⟩

/-- The C1 scenario engine built through the public API: pos seeded with
(0,0,0,0), vel with (1,0,0,0), mutual dependencies, then init. -/
def engineC1 : Except String GPGPU := do
  let g1 ← GPGPU.new.addVariable "positionTex" [⟨0, 0, 0, 0⟩] posProgC1
  let g2 ← g1.addVariable "velocityTex" [⟨1, 0, 0, 0⟩] velProgC1
  let g3 := g2.setVariableDependencies "positionTex" ["positionTex", "velocityTex"]
  let g4 := g3.setVariableDependencies "velocityTex" ["positionTex", "velocityTex"]
  Except.ok g4.init

/-- The state engineC1 evaluates to. -/
def gC1 : GPGPU :=
  { gpuCompute :=
    { varList :=
      [ { name := "positionTex", prog := posProgC1, initialTexture := [⟨0, 0, 0, 0⟩],
          renderTargets := ([⟨0, 0, 0, 0⟩], [⟨0, 0, 0, 0⟩]),
          dependencies := ["positionTex", "velocityTex"], needsUpdate := false },
        { name := "velocityTex", prog := velProgC1, initialTexture := [⟨1, 0, 0, 0⟩],
          renderTargets := ([⟨1, 0, 0, 0⟩], [⟨1, 0, 0, 0⟩]),
          dependencies := ["positionTex", "velocityTex"], needsUpdate := false } ],
      currentIndex := false },
    variableKeys := ["positionTex", "velocityTex"] }

/-- The C2 scenario engine built through the public API: one variable with
the identity program, seeded with (0,0,0,0), then init. -/
def engineC2 : Except String GPGPU := do
  let g1 ← GPGPU.new.addVariable "positionTex" [⟨0, 0, 0, 0⟩] identProg
  let g2 := g1.setVariableDependencies "positionTex" ["positionTex"]
  Except.ok g2.init

/-- The state engineC2 evaluates to (ping-pong flag false). -/
def gC2 : GPGPU :=
  { gpuCompute :=
    { varList :=
      [ { name := "positionTex", prog := identProg, initialTexture := [⟨0, 0, 0, 0⟩],
          renderTargets := ([⟨0, 0, 0, 0⟩], [⟨0, 0, 0, 0⟩]),
          dependencies := ["positionTex"], needsUpdate := false } ],
      currentIndex := false },
    variableKeys := ["positionTex"] }

/-- The engine after one successful registration of "positionTex" on a fresh
GPGPU instance (used to exercise the duplicate-name rejection). -/
def gDup1 : GPGPU :=
  { gpuCompute :=
    { varList :=
      [ { name := "positionTex", prog := identProg, initialTexture := [⟨0, 0, 0, 0⟩],
          renderTargets := ([], []), dependencies := [], needsUpdate := false } ],
      currentIndex := false },
    variableKeys := ["positionTex"] }

/-- A behavior that keeps every source default. -/
def defaultBehavior : ParticleBehavior := {}

/-! ## Helper evaluation lemmas -/

/-- Evaluation lemma: the toFixed(1) literal of 10 is "10.0". -/
theorem jsToFixed1_ten : jsToFixed1 10 = "10.0" := by
  have h : (Int.floor (|(10 : ℚ)| * 10 + 1/2)) = 100 := by norm_num
  simp only [jsToFixed1, h]
  norm_num
  decide

/-- Evaluation lemma: the toFixed(1) literal of -10 is "-10.0". -/
theorem jsToFixed1_neg_ten : jsToFixed1 (-10) = "-10.0" := by
  have h : (Int.floor (|(-10 : ℚ)| * 10 + 1/2)) = 100 := by norm_num
  simp only [jsToFixed1, h]
  norm_num
  decide

/-- Evaluation lemma: the toFixed(1) literal of 0.8 is "0.8". -/
theorem jsToFixed1_point_eight : jsToFixed1 (4/5) = "0.8" := by
  have habs : |(4/5 : ℚ)| = 4/5 := abs_of_nonneg (by norm_num)
  have h : (Int.floor (|(4/5 : ℚ)| * 10 + 1/2)) = 8 := by rw [habs]; norm_num
  simp only [jsToFixed1, h]
  norm_num
  decide

/-- Evaluation lemma: the tenth-rounded values of the claims are exact. -/
theorem toFixed1Val_exact :
    toFixed1Val 10 = 10 ∧ toFixed1Val (-10) = -10 ∧ toFixed1Val (4/5) = 4/5 := by
  have habs : |(4/5 : ℚ)| = 4/5 := abs_of_nonneg (by norm_num)
  refine ⟨?_, ?_, ?_⟩ <;> simp only [toFixed1Val, habs] <;> norm_num

/-- Replacing the inactive buffer preserves the variable name. -/
theorem setTargetAt_name (v : SimVariable) (b : Bool) (buf : List Vec4) :
    (setTargetAt v b buf).name = v.name := by
  cases b <;> simp [setTargetAt]

/-- Reading the buffer just written through setTargetAt yields that buffer. -/
theorem currentOf_setTargetAt (v : SimVariable) (b : Bool) (buf : List Vec4) :
    currentOf (setTargetAt v b buf) b = buf := by
  cases b <;> simp [setTargetAt, currentOf]

/-- Length of a flatMap whose pieces all have the same length. -/
theorem length_flatMap_const {α β : Type} (l : List α) (f : α → List β) (k : ℕ)
    (h : ∀ a, (f a).length = k) : (l.flatMap f).length = l.length * k := by
  induction l with
  | nil => simp
  | cons a l ih => simp [List.flatMap_cons, ih, h a, Nat.succ_mul, Nat.add_comm]

/-! ## Claim theorems -/

/-- C5: uniform type inference is a deterministic function of the input
value (equal inputs always give the same declared shape), and on the listed
shapes: 2.5 maps to float, a plain object with numeric x, y, z fields to
vec3, [1,2] to vec2, [1,2,3,4] to vec4, and an object with no recognizable
numeric-field pattern is omitted: no declaration is emitted and no failure
is raised (the declaration list for such a uniform is simply empty). -/
theorem detectGLSLType_shapes :
    (∀ v : JSValue, detectGLSLType v = detectGLSLType v) ∧
    detectGLSLType (.num (5/2)) = some "float" ∧
    detectGLSLType (.obj [("x", .num 1), ("y", .num 2), ("z", .num 3)]) = some "vec3" ∧
    detectGLSLType (.arr [.num 1, .num 2]) = some "vec2" ∧
    detectGLSLType (.arr [.num 1, .num 2, .num 3, .num 4]) = some "vec4" ∧
    detectGLSLType (.obj [("foo", .str "bar")]) = Option.none ∧
    generateUniformDeclarations [("u", .obj [("value", .obj [("foo", .str "bar")])])] = "" :=
  ⟨fun _ => rfl, by decide, by decide, by decide, by decide, by decide, by decide⟩

/-- C4 (amended): the grid side is floor(sqrt(count)), so the capacity
width*height equals floor(sqrt(count)) squared, which is AT MOST count (not
ceil(sqrt(count)) squared and not at least count); the initial-data buffer
has length width*height*4, 4 channels per cell. -/
theorem grid_capacity_floor_sqrt :
    ∀ (count : ℕ) (config : ℕ → ℕ → ℕ → Vec4),
      (generateInitialPositions count config).length
        = textureSize count * textureSize count * 4 ∧
      textureSize count * textureSize count ≤ count := by
  intro count config
  constructor
  · unfold generateInitialPositions textureSize
    simp [List.length_flatMap, Function.comp_def, List.map_const', List.sum_replicate,
      smul_eq_mul]
  · exact Nat.sqrt_le count

/-- C4 (counterexample): at count = 2 the capacity is
floor(sqrt 2)^2 = 1, which is neither ceil(sqrt 2)^2 = 4 nor at least 2, so
not every particle has a grid cell; the buffer length is 1*1*4 = 4. -/
theorem grid_capacity_claim_false_at_two :
    textureSize 2 = 1 ∧
    textureSize 2 * textureSize 2 ≠ claimCeilSqrt 2 * claimCeilSqrt 2 ∧
    textureSize 2 * textureSize 2 < 2 ∧
    (generateInitialPositions 2 (fun _ _ _ => ⟨0, 0, 0, 0⟩)).length = 4 := by
  have h2 : Nat.sqrt 2 = 1 := (Nat.eq_sqrt.mpr (by norm_num)).symm
  refine ⟨h2, ?_, ?_, ?_⟩
  · simp [textureSize, claimCeilSqrt, h2]
  · simp [textureSize, h2]
  · unfold generateInitialPositions
    simp [List.length_flatMap, Function.comp_def, List.map_const', List.sum_replicate,
      smul_eq_mul, h2]

/-- C8: the frame driver clamps each raw delta to MAX_DELTA_TIME = 1/30
before use: with a raw delta of 5.0 the uploaded delta is 1/30, not 5, and
the accumulated elapsed time advances by the clamped value; over any
sequence of frames the elapsed time is the sum of the clamped deltas. -/
theorem delta_clamp :
    (∀ st : FrameClock, (frameStep st 5).1.2 = 1/30 ∧
      (frameStep st 5).2.timeAcc = st.timeAcc + 1/30) ∧
    (∀ (st : FrameClock) (d : ℚ),
      (frameStep st d).1.2 = min d MAX_DELTA_TIME ∧
      (frameStep st d).1.1 = st.timeAcc ∧
      (frameStep st d).2.timeAcc = st.timeAcc + min d MAX_DELTA_TIME) ∧
    (∀ (st : FrameClock) (deltas : List ℚ),
      (runFrames st deltas).timeAcc
        = st.timeAcc + (deltas.map (fun d => min d MAX_DELTA_TIME)).sum) := by
  have hmin : min (5 : ℚ) MAX_DELTA_TIME = 1/30 := by
    rw [MAX_DELTA_TIME]
    exact min_eq_right (by norm_num)
  refine ⟨fun st => ⟨?_, ?_⟩, fun st d => ⟨rfl, rfl, rfl⟩, ?_⟩
  · simp [frameStep, hmin]
  · simp [frameStep, hmin]
  · intro st deltas
    induction deltas generalizing st with
    | nil => simp [runFrames]
    | cons d ds ih =>
      have h1 : runFrames st (d :: ds) = runFrames ⟨st.timeAcc + min d MAX_DELTA_TIME⟩ ds := rfl
      rw [h1, ih]
      simp [add_assoc]

/-- C10: a bounce boundary config with bounceFactor exactly 0 generates the
same boundary code as bounceFactor 0.8 (the JavaScript fallback
`bounceFactor || 0.8` treats 0 as absent), and likewise for an omitted
factor, so the reflected velocity is scaled by -0.8, never by 0; the
semantics of the emitted block coincide accordingly. -/
theorem bounce_factor_zero_defaults :
    ∀ (mn mx : ℚ × ℚ × ℚ),
      effBounceFactor (some 0) = 4/5 ∧
      effBounceFactor Option.none = 4/5 ∧
      getBoundaryShader ⟨BoundaryType.bounce, mn, mx, some 0⟩
        = getBoundaryShader ⟨BoundaryType.bounce, mn, mx, some (4/5)⟩ ∧
      getBoundaryShader ⟨BoundaryType.bounce, mn, mx, Option.none⟩
        = getBoundaryShader ⟨BoundaryType.bounce, mn, mx, some (4/5)⟩ ∧
      (∀ pos vel : ℚ × ℚ × ℚ,
        applyBounceBoundary ⟨BoundaryType.bounce, mn, mx, some 0⟩ pos vel
          = applyBounceBoundary ⟨BoundaryType.bounce, mn, mx, some (4/5)⟩ pos vel) := by
  intro mn mx
  have h0 : effBounceFactor (some 0) = 4/5 := by simp [effBounceFactor]
  have hn : effBounceFactor Option.none = 4/5 := rfl
  have h45 : effBounceFactor (some (4/5)) = 4/5 := by norm_num [effBounceFactor]
  refine ⟨h0, hn, ?_, ?_, ?_⟩
  · simp [getBoundaryShader, h0, h45]
  · simp [getBoundaryShader, hn, h45]
  · intro pos vel
    simp only [applyBounceBoundary, h0, h45]

/-- C6: with wrap policy and bounds [-10,10] on each axis, the generated
position-pass boundary code teleports: a component strictly above the max
bound is set to the min bound (10.5 becomes -10, neither clamped to 10 nor
left at 10.5), a component strictly below the min bound is set to the max
bound, an in-range component is untouched, and the three axes are handled
independently. -/
theorem wrap_boundary_teleports :
    (∀ p : ℚ, p > 10 → wrapAxis (-10) 10 p = -10) ∧
    (∀ p : ℚ, p < -10 → wrapAxis (-10) 10 p = 10) ∧
    (∀ p : ℚ, -10 ≤ p → p ≤ 10 → wrapAxis (-10) 10 p = p) ∧
    (∀ px py pz : ℚ,
      applyWrapBoundary ⟨BoundaryType.wrap, (-10, -10, -10), (10, 10, 10), Option.none⟩
          (px, py, pz)
        = (wrapAxis (-10) 10 px, wrapAxis (-10) 10 py, wrapAxis (-10) 10 pz)) ∧
    applyWrapBoundary ⟨BoundaryType.wrap, (-10, -10, -10), (10, 10, 10), Option.none⟩
        (21/2, 0, 0)
      = (-10, 0, 0) := by
  obtain ⟨hv10, hvn10, -⟩ := toFixed1Val_exact
  have hgt : ∀ p : ℚ, p > 10 → wrapAxis (-10) 10 p = -10 := by
    intro p hp
    simp only [wrapAxis]
    rw [if_pos hp]
    norm_num
  have hlt : ∀ p : ℚ, p < -10 → wrapAxis (-10) 10 p = 10 := by
    intro p hp
    simp only [wrapAxis]
    rw [if_neg (by linarith : ¬ (10 : ℚ) < p), if_pos hp]
  have hin : ∀ p : ℚ, -10 ≤ p → p ≤ 10 → wrapAxis (-10) 10 p = p := by
    intro p h1 h2
    simp only [wrapAxis]
    rw [if_neg (not_lt.mpr h2), if_neg (not_lt.mpr h1)]
  have hvec : ∀ px py pz : ℚ,
      applyWrapBoundary ⟨BoundaryType.wrap, (-10, -10, -10), (10, 10, 10), Option.none⟩
          (px, py, pz)
        = (wrapAxis (-10) 10 px, wrapAxis (-10) 10 py, wrapAxis (-10) 10 pz) := by
    intro px py pz
    simp only [applyWrapBoundary, hv10, hvn10]
  refine ⟨hgt, hlt, hin, hvec, ?_⟩
  rw [hvec, hgt (21/2) (by norm_num), hin 0 (by norm_num) (by norm_num)]

/-- C6 witness: the theorem applied at the concrete component 10.5. -/
theorem wrap_boundary_teleports_witness :
    (21/2 : ℚ) > 10 ∧ wrapAxis (-10) 10 (21/2) = -10 :=
  ⟨by norm_num, wrap_boundary_teleports.1 (21/2) (by norm_num)⟩

/-- C7: with bounce policy, bounds [-10,10] and bounceFactor 0.8, the
generated position-pass boundary code clamps a component above the max
bound to exactly 10 and multiplies the matching velocity component by -0.8,
symmetrically at the min bound, leaves in-range components and their
velocities untouched, and handles the three axes independently. -/
theorem bounce_boundary_clamps :
    (∀ p v : ℚ, p > 10 → bounceAxis (-10) 10 (4/5) p v = (10, v * -(4/5))) ∧
    (∀ p v : ℚ, p < -10 → bounceAxis (-10) 10 (4/5) p v = (-10, v * -(4/5))) ∧
    (∀ p v : ℚ, -10 ≤ p → p ≤ 10 → bounceAxis (-10) 10 (4/5) p v = (p, v)) ∧
    (∀ px py pz vx vy vz : ℚ,
      applyBounceBoundary ⟨BoundaryType.bounce, (-10, -10, -10), (10, 10, 10), some (4/5)⟩
          (px, py, pz) (vx, vy, vz)
        = (((bounceAxis (-10) 10 (4/5) px vx).1, (bounceAxis (-10) 10 (4/5) py vy).1,
            (bounceAxis (-10) 10 (4/5) pz vz).1),
           ((bounceAxis (-10) 10 (4/5) px vx).2, (bounceAxis (-10) 10 (4/5) py vy).2,
            (bounceAxis (-10) 10 (4/5) pz vz).2))) ∧
    applyBounceBoundary ⟨BoundaryType.bounce, (-10, -10, -10), (10, 10, 10), some (4/5)⟩
        (21/2, 0, 0) (1, 0, 0)
      = ((10, 0, 0), (-(4/5), 0, 0)) := by
  obtain ⟨hv10, hvn10, hv45⟩ := toFixed1Val_exact
  have h45 : effBounceFactor (some (4/5)) = 4/5 := by norm_num [effBounceFactor]
  have hgt : ∀ p v : ℚ, p > 10 → bounceAxis (-10) 10 (4/5) p v = (10, v * -(4/5)) := by
    intro p v hp
    simp only [bounceAxis]
    rw [if_pos hp]
    norm_num
  have hlt : ∀ p v : ℚ, p < -10 → bounceAxis (-10) 10 (4/5) p v = (-10, v * -(4/5)) := by
    intro p v hp
    simp only [bounceAxis]
    rw [if_neg (by linarith : ¬ (10 : ℚ) < p)]
    simp only
    rw [if_pos hp]
  have hin : ∀ p v : ℚ, -10 ≤ p → p ≤ 10 → bounceAxis (-10) 10 (4/5) p v = (p, v) := by
    intro p v h1 h2
    simp only [bounceAxis]
    rw [if_neg (not_lt.mpr h2)]
    simp only
    rw [if_neg (not_lt.mpr h1)]
  have hvec : ∀ px py pz vx vy vz : ℚ,
      applyBounceBoundary ⟨BoundaryType.bounce, (-10, -10, -10), (10, 10, 10), some (4/5)⟩
          (px, py, pz) (vx, vy, vz)
        = (((bounceAxis (-10) 10 (4/5) px vx).1, (bounceAxis (-10) 10 (4/5) py vy).1,
            (bounceAxis (-10) 10 (4/5) pz vz).1),
           ((bounceAxis (-10) 10 (4/5) px vx).2, (bounceAxis (-10) 10 (4/5) py vy).2,
            (bounceAxis (-10) 10 (4/5) pz vz).2)) := by
    intro px py pz vx vy vz
    simp only [applyBounceBoundary, h45, hv10, hvn10, hv45]
  refine ⟨hgt, hlt, hin, hvec, ?_⟩
  rw [hvec, hgt (21/2) 1 (by norm_num), hin 0 0 (by norm_num) (by norm_num)]
  norm_num

/-- C7 witness: the theorem applied at the concrete component 10.5 with unit
velocity. -/
theorem bounce_boundary_clamps_witness :
    (21/2 : ℚ) > 10 ∧ bounceAxis (-10) 10 (4/5) (21/2) 1 = (10, 1 * -(4/5)) :=
  ⟨by norm_num, bounce_boundary_clamps.1 (21/2) 1 (by norm_num)⟩

/-- C9: for every behavior the composed position-pass program is, in order:
header and inferred uniform declarations, the position update-logic
fragment spliced verbatim, the boundary block derived from the boundary
config (empty when the policy is none), the age update
`pos.w = mod(pos.w + delta, 1.0);`, and the write `gl_FragColor = pos;`;
the composed velocity-pass program splices the velocity update-logic
fragment verbatim, and the fixed parts of the velocity template contain no
boundary block (neither the wrap nor the bounce marker ever occurs in
them) and no age update. -/
theorem shader_composition_structure :
    ∀ b : ParticleBehavior,
      getPositionShader b =
        "\n            uniform float time;\n            uniform float delta;\n"
        ++ spliceUniformDeclarations (generateUniformDeclarations b.positionUniforms)
        ++ "            void main() \x7b\n                vec2 uv = gl_FragCoord.xy / resolution.xy;\n                \n                vec4 pos = texture2D(positionTex, uv);\n                vec4 vel = texture2D(velocityTex, uv);\n                \n                // Position update logic (injected by behavior)\n                "
        ++ b.positionUpdateLogic
        ++ "\n                \n                // Boundary handling (injected by behavior)\n                "
        ++ getBoundaryShader b.boundaryConfig
        ++ "\n                \n                // Update age\n                "
        ++ "pos.w = mod(pos.w + delta, 1.0);"
        ++ "\n                \n                "
        ++ "gl_FragColor = pos;"
        ++ "\n            \x7d\n        " ∧
      (b.boundaryConfig.type = BoundaryType.none →
        getBoundaryShader b.boundaryConfig = "") ∧
      getVelocityShader b =
        "\n            uniform float time;\n            uniform float delta;\n"
        ++ spliceUniformDeclarations (generateUniformDeclarations b.velocityUniforms)
        ++ "            void main() \x7b\n                vec2 uv = gl_FragCoord.xy / resolution.xy;\n                \n                vec4 vel = texture2D(velocityTex, uv);\n                vec4 pos = texture2D(positionTex, uv);\n                \n                // Velocity update logic (injected by behavior)\n                "
        ++ b.velocityUpdateLogic
        ++ "\n                \n                gl_FragColor = vel;\n            \x7d\n        " ∧
      containsSub "\n            uniform float time;\n            uniform float delta;\n"
        "pos.w = mod(pos.w + delta, 1.0);" = false ∧
      containsSub "            void main() \x7b\n                vec2 uv = gl_FragCoord.xy / resolution.xy;\n                \n                vec4 vel = texture2D(velocityTex, uv);\n                vec4 pos = texture2D(positionTex, uv);\n                \n                // Velocity update logic (injected by behavior)\n                "
        "pos.w = mod(pos.w + delta, 1.0);" = false ∧
      containsSub "\n                \n                gl_FragColor = vel;\n            \x7d\n        "
        "pos.w = mod(pos.w + delta, 1.0);" = false ∧
      containsSub "\n            uniform float time;\n            uniform float delta;\n"
        "// Wrap around boundaries" = false ∧
      containsSub "            void main() \x7b\n                vec2 uv = gl_FragCoord.xy / resolution.xy;\n                \n                vec4 vel = texture2D(velocityTex, uv);\n                vec4 pos = texture2D(positionTex, uv);\n                \n                // Velocity update logic (injected by behavior)\n                "
        "// Wrap around boundaries" = false ∧
      containsSub "\n                \n                gl_FragColor = vel;\n            \x7d\n        "
        "// Wrap around boundaries" = false ∧
      containsSub "\n            uniform float time;\n            uniform float delta;\n"
        "// Boundary conditions - bounce" = false ∧
      containsSub "            void main() \x7b\n                vec2 uv = gl_FragCoord.xy / resolution.xy;\n                \n                vec4 vel = texture2D(velocityTex, uv);\n                vec4 pos = texture2D(positionTex, uv);\n                \n                // Velocity update logic (injected by behavior)\n                "
        "// Boundary conditions - bounce" = false ∧
      containsSub "\n                \n                gl_FragColor = vel;\n            \x7d\n        "
        "// Boundary conditions - bounce" = false := by
  have hc4 : ("\n                \n                // Update age\n                pos.w = mod(pos.w + delta, 1.0);\n                \n                gl_FragColor = pos;\n            \x7d\n        " : String)
      = "\n                \n                // Update age\n                "
        ++ "pos.w = mod(pos.w + delta, 1.0);"
        ++ "\n                \n                "
        ++ "gl_FragColor = pos;"
        ++ "\n            \x7d\n        " := by decide
  intro b
  refine ⟨?_, ?_, rfl, by decide, by decide, by decide, by decide, by decide, by decide,
    by decide, by decide, by decide⟩
  · rw [getPositionShader, hc4]
    simp only [String.append_assoc]
  · intro h
    simp [getBoundaryShader, h]

/-- C9 witness: the theorem applied to the all-defaults behavior, whose
boundary policy is none, so its boundary block is empty. -/
theorem shader_composition_structure_witness :
    getBoundaryShader defaultBehavior.boundaryConfig = "" :=
  (shader_composition_structure defaultBehavior).2.1 rfl

/-- Characterization of GPGPU.addVariable: it fails on a duplicate name and
otherwise appends the new variable and records its key. -/
theorem addVariable_eq (g : GPGPU) (name : String) (data : List Vec4)
    (prog : (String → Vec4) → Vec4) :
    g.addVariable name data prog =
      if g.gpuCompute.varList.any (fun v => v.name == name) then
        Except.error ("Variable already registered: " ++ name)
      else Except.ok
        { gpuCompute := { g.gpuCompute with varList := g.gpuCompute.varList ++
            [{ name := name, prog := prog, initialTexture := data,
               renderTargets := ([], []), dependencies := [], needsUpdate := false }] },
          variableKeys := recordInsertKey g.variableKeys name } := by
  unfold GPGPU.addVariable GPUComputationRenderer.addVariableByMat
  split <;> rfl

/-- C3: registering the same variable name twice fails deterministically:
whenever a first addVariable call with some name succeeds, a second call
with the same name returns an error, and the first registration is still
present, with its own data and program, untouched by the failed call
(the failed call returns only an error and no new engine state). -/
theorem addVariable_duplicate_fails :
    ∀ (g g1 : GPGPU) (name : String) (data1 data2 : List Vec4)
      (prog1 prog2 : (String → Vec4) → Vec4),
      g.addVariable name data1 prog1 = Except.ok g1 →
      (∃ msg, g1.addVariable name data2 prog2 = Except.error msg) ∧
      (∃ v, g1.gpuCompute.findVar name = some v ∧
        v.initialTexture = data1 ∧ v.prog = prog1) := by
  intro g g1 name d1 d2 p1 p2 h
  rw [addVariable_eq] at h
  by_cases hdup : g.gpuCompute.varList.any (fun v => v.name == name) = true
  · rw [if_pos hdup] at h
    exact absurd h (by simp)
  · rw [if_neg hdup] at h
    have hfalse : g.gpuCompute.varList.any (fun v => v.name == name) = false :=
      Bool.eq_false_iff.mpr hdup
    obtain rfl : _ = g1 := Except.ok.inj h
    have hany : (g.gpuCompute.varList ++
        [(⟨name, p1, d1, ([], []), [], false⟩ : SimVariable)]).any
          (fun v => v.name == name) = true := by
      simp [List.any_append]
    constructor
    · refine ⟨"Variable already registered: " ++ name, ?_⟩
      rw [addVariable_eq]
      simp only
      rw [if_pos hany]
    · have hnone : g.gpuCompute.varList.find? (fun v => v.name == name) = Option.none := by
        rw [List.find?_eq_none]
        intro x hx
        have hx2 := List.any_eq_false.mp hfalse x hx
        simpa using hx2
      unfold GPUComputationRenderer.findVar
      simp only
      rw [List.find?_append, hnone]
      refine ⟨⟨name, p1, d1, ([], []), [], false⟩, ?_, rfl, rfl⟩
      rw [Option.none_or]
      exact List.find?_cons_of_pos _ (by simp)

/-- C3 witness: the theorem applied to a fresh engine after one successful
registration of "positionTex". -/
theorem addVariable_duplicate_fails_witness :
    (∃ msg, gDup1.addVariable "positionTex" [] identProg = Except.error msg) ∧
    (∃ v, gDup1.gpuCompute.findVar "positionTex" = some v ∧
      v.initialTexture = [⟨0, 0, 0, 0⟩] ∧ v.prog = identProg) :=
  addVariable_duplicate_fails GPGPU.new gDup1 "positionTex" [⟨0, 0, 0, 0⟩] [] identProg
    identProg rfl

/-- C1: within one step every variable reads only the pre-step current
buffers of its declared dependencies: for every engine and variable name,
the current buffer after compute() equals the step function of the
PRE-step snapshot (so no variable ever observes mid-step output of
another variable); in the concrete two-variable scenario with programs
`pos += vel*delta` and `vel *= 0.5`, delta = 1, seeds pos = (0,0,0,0) and
vel = (1,0,0,0), one step yields pos = (1,0,0,0), computed from the
pre-step vel = 1, and vel = (0.5,0,0,0). -/
theorem snapshot_isolation :
    (∀ (r : GPUComputationRenderer) (name : String),
      ((r.compute).findVar name).map (fun v => currentOf v (r.compute).currentIndex)
        = (r.findVar name).map (fun v => stepBuffer r v)) ∧
    engineC1 = Except.ok gC1 ∧
    (gC1.compute).getCurrentRenderTarget "positionTex" = some [⟨1, 0, 0, 0⟩] ∧
    (gC1.compute).getCurrentRenderTarget "velocityTex" = some [⟨1/2, 0, 0, 0⟩] := by
  refine ⟨?_, rfl, ?_, ?_⟩
  · intro r name
    show ((r.varList.map fun v => setTargetAt v (!r.currentIndex) (stepBuffer r v)).find?
        (fun v => v.name == name)).map (fun v => currentOf v (!r.currentIndex))
      = (r.varList.find? (fun v => v.name == name)).map (fun v => stepBuffer r v)
    rw [List.find?_map]
    have hp : ((fun v : SimVariable => v.name == name) ∘
        (fun v => setTargetAt v (!r.currentIndex) (stepBuffer r v)))
        = fun v => v.name == name := by
      funext v
      simp [Function.comp, setTargetAt_name]
    rw [hp, Option.map_map]
    congr 1
    funext v
    simp [Function.comp, currentOf_setTargetAt]
  · simp [GPGPU.compute, GPGPU.getCurrentRenderTarget, GPUComputationRenderer.compute, gC1,
      GPUComputationRenderer.findVar, stepBuffer, preStepCurrent, currentOf, setTargetAt,
      posProgC1, velProgC1, List.range_succ, Vec4.mk.injEq]
  · simp [GPGPU.compute, GPGPU.getCurrentRenderTarget, GPUComputationRenderer.compute, gC1,
      GPUComputationRenderer.findVar, stepBuffer, preStepCurrent, currentOf, setTargetAt,
      posProgC1, velProgC1, List.range_succ, Vec4.mk.injEq]

/-- C2 (stale read after reset): in the C2 scenario engine, resetVariable
followed immediately by getCurrentRenderTarget returns the PRE-reset buffer
contents (0,0,0,0), not the new data (5,0,0,0), and this happens for both
parities of the ping-pong flag (the freshly initialized engine with flag
false, and the engine after one identity compute with flag true); the new
data reaches only the initial-value texture, not the current buffer. -/
theorem reset_not_visible_stale_read :
    engineC2 = Except.ok gC2 ∧
    gC2.gpuCompute.currentIndex = false ∧
    (gC2.compute).gpuCompute.currentIndex = true ∧
    (gC2.resetVariable "positionTex" [⟨5, 0, 0, 0⟩]).getCurrentRenderTarget "positionTex"
      = some [⟨0, 0, 0, 0⟩] ∧
    ((gC2.compute).resetVariable "positionTex" [⟨5, 0, 0, 0⟩]).getCurrentRenderTarget "positionTex"
      = some [⟨0, 0, 0, 0⟩] ∧
    ((gC2.resetVariable "positionTex" [⟨5, 0, 0, 0⟩]).gpuCompute.findVar "positionTex").map
        (fun v => v.initialTexture) = some [⟨5, 0, 0, 0⟩] ∧
    ([(⟨0, 0, 0, 0⟩ : Vec4)] : List Vec4) ≠ [⟨5, 0, 0, 0⟩] := by
  refine ⟨rfl, rfl, rfl, ?_, ?_, ?_, ?_⟩
  · simp [GPGPU.resetVariable, GPGPU.getCurrentRenderTarget, gC2, typedArraySet,
      GPUComputationRenderer.findVar, currentOf]
  · simp [GPGPU.compute, GPGPU.resetVariable, GPGPU.getCurrentRenderTarget, gC2,
      GPUComputationRenderer.compute, typedArraySet, GPUComputationRenderer.findVar,
      stepBuffer, preStepCurrent, currentOf, setTargetAt, identProg, List.range_succ]
  · simp [GPGPU.resetVariable, gC2, typedArraySet, GPUComputationRenderer.findVar]
  · norm_num [Vec4.mk.injEq]
